import Mathlib

/-!
Shallow embedding of the aggregation and validation logic of
neurokit2/rsp/rsp_intervalrelated.py.

A pandas DataFrame is modelled as an ordered list of named columns whose
values are exact rationals (the code only forms arithmetic means, so the
embedding keeps the arithmetic exact).  Raised Python exceptions are
modelled with an Except monad over an explicit error type whose
constructors record which statement of the source raised.  The external
collaborator rsp_rrv (imported from .rsp_rrv, not part of the verified
source) is a parameter of the embedding: a function from the data frame
and the sampling rate to either a failure or a finite string-keyed
mapping, exactly the shape the source consumes.
-/

namespace RspInterval

/-- Substring occurrence on character lists: true when needle occurs
contiguously inside the haystack. -/
def containsSub (needle : List Char) : List Char → Bool
  | [] => needle.isEmpty
  | c :: cs => needle.isPrefixOf (c :: cs) || containsSub needle cs

/-- Embedding of the Python membership test needle in s on strings. -/
def strContains (s pattern : String) : Bool :=
  containsSub pattern.toList s.toList

/-- One DataFrame column: its name and its per-sample values. -/
structure Column where
  name : String
  values : List ℚ
deriving DecidableEq, Repr

/-- A pandas DataFrame: an ordered sequence of named columns. -/
structure DFrame where
  cols : List Column
deriving DecidableEq, Repr

/-- A row label of the resulting DataFrame: the integer index 0 produced by
the transpose in the single-recording path, or the dict key in the
collection path. -/
inductive RowLabel where
  | num (n : Nat)
  | str (s : String)
deriving DecidableEq, Repr

/-- The DataFrame returned by rsp_intervalrelated: labelled rows, each an
ordered mapping from column name to value. -/
structure ResultTable where
  rows : List (RowLabel × List (String × ℚ))
deriving DecidableEq, Repr

/-- The exceptions the source can raise.
  missingColumn f : the ValueError whose message asks for an f column;
  rrvRaise        : an exception raised inside the rsp_rrv collaborator
                    propagating out of the call (the spec groups this,
                    together with a missing metric key, under the name
                    RrvComputationFailed);
  keyError k      : the KeyError raised by indexing a mapping or a frame
                    with an absent key k;
  invalidInputShape : named by the spec for unrecognised input shapes;
                    the source never raises it (kept so that statements
                    about it can be expressed);
  unboundLocal    : the UnboundLocalError raised by the final return of
                    rsp_intervals when no branch assigned it. -/
inductive Err where
  | missingColumn (family : String)
  | rrvRaise
  | keyError (key : String)
  | invalidInputShape
  | unboundLocal
deriving DecidableEq, Repr

/-- The mapping returned by the rsp_rrv collaborator. -/
abbrev RrvMap := List (String × ℚ)

/-- Key lookup in the collaborator mapping (Python dict indexing). -/
def lookupRrv (m : RrvMap) (key : String) : Option ℚ :=
  (m.find? (fun p => p.1 == key)).map (fun p => p.2)

/-- The 15 RRV metric names whose values the source copies, in the order
of the 15 assignment statements. -/
def rrvMetricNames : List String :=
  ["SDBB", "RMSSD", "SDSD", "VLF", "LF", "HF", "LFHF", "LFn", "HFn",
   "SD1", "SD2", "SD2SD1", "ApEn", "SampEn", "DFA"]

/-- The block of 15 statements intervals["RRV_k"] = float(rrv["RRV_k"]),
one per metric name in order: each looks the key up (KeyError when
absent, aborting the whole block) and records the value (float coercion
is the identity on the rational model). -/
def copyRrvKeys (rrv : RrvMap) : List String → Except Err (List (String × ℚ))
  | [] => .ok []
  | k :: ks =>
    match lookupRrv rrv ("RRV_" ++ k) with
    | none => .error (.keyError ("RRV_" ++ k))
    | some v =>
      match copyRrvKeys rrv ks with
      | .error e => .error e
      | .ok rest => .ok (("RRV_" ++ k, v) :: rest)

/-- numpy mean: sum of the values divided by their count. -/
def mean (xs : List ℚ) : ℚ :=
  xs.sum / xs.length

/-- Exact-name column read, interval[key]: the column named key, none when
absent (a KeyError in the source). -/
def getCol (df : DFrame) (key : String) : Option Column :=
  df.cols.find? (fun c => c.name == key)

/-- Python dict assignment output[k] = v: overwrite the entry when the key
is present, otherwise append it. -/
def setKey (m : List (String × ℚ)) (k : String) (v : ℚ) : List (String × ℚ) :=
  if m.any (fun p => p.1 == k) then
    m.map (fun p => if p.1 == k then (k, v) else p)
  else
    m ++ [(k, v)]

/-- Embedding of _rsp_intervalrelated_formatinput(interval, output): the
two absence-only substring checks on the column names, then the two
exact-name column reads, then the two dict assignments into output. -/
def formatinput (interval : DFrame) (output : List (String × ℚ)) :
    Except Err (List (String × ℚ)) :=
  let colnames := interval.cols.map (fun c => c.name)
  if (colnames.filter (fun i => strContains i "RSP_Rate")).length == 0 then
    .error (.missingColumn "RSP_Rate")
  else if (colnames.filter (fun i => strContains i "RSP_Amplitude")).length == 0 then
    .error (.missingColumn "RSP_Amplitude")
  else
    match getCol interval "RSP_Rate" with
    | none => .error (.keyError "RSP_Rate")
    | some rate =>
      match getCol interval "RSP_Amplitude" with
      | none => .error (.keyError "RSP_Amplitude")
      | some amplitude =>
        .ok (setKey (setKey output "RSP_Rate_Mean" (mean rate.values))
              "RSP_Amplitude_Mean" (mean amplitude.values))

/-- The argument of rsp_intervalrelated: a DataFrame, a dict of named
DataFrames (in insertion order), or a value of any other type (all such
values take the same control path, so one constructor represents them). -/
inductive Input where
  | frame (df : DFrame)
  | coll (entries : List (String × DFrame))
  | other
deriving DecidableEq, Repr

/-- The loop of the dict branch: for each entry in order, a fresh empty
accumulator is passed to the helper and the returned row is collected
under the key; an exception in any iteration aborts the whole loop. -/
def collRows : List (String × DFrame) →
    Except Err (List (RowLabel × List (String × ℚ)))
  | [] => .ok []
  | (k, df) :: rest =>
    match formatinput df [] with
    | .error e => .error e
    | .ok row =>
      match collRows rest with
      | .error e => .error e
      | .ok rs => .ok ((.str k, row) :: rs)

/-- Embedding of rsp_intervalrelated(data, sampling_rate).  rsp_rrv is the
external collaborator.  DataFrame branch: the rate columns are the
columns whose name contains RSP_Rate; the singleton pattern is the
len == 1 test of the source and rate_col is rate_cols[0]; the dict
intervals receives Rate_Mean, then the 15 RRV metric copies, then (after
the amplitude check) Amplitude_Mean; from_dict / transpose / add_prefix
turn it into a one-row table labelled 0 with RSP_ prepended to every key.
Dict branch: collRows, then from_dict(orient = index) keyed by the entry
names, no prefix.  Any other value falls through both isinstance tests
and the final return raises UnboundLocalError. -/
def rsp_intervalrelated (rsp_rrv : DFrame → Nat → Except Unit RrvMap)
    (data : Input) (sampling_rate : Nat) : Except Err ResultTable :=
  match data with
  | .frame df =>
    match df.cols.filter (fun c => strContains c.name "RSP_Rate") with
    | [rate_col] =>
      match rsp_rrv df sampling_rate with
      | .error _ => .error .rrvRaise
      | .ok rrv =>
        match copyRrvKeys rrv rrvMetricNames with
        | .error e => .error e
        | .ok rrvPairs =>
          match df.cols.filter (fun c => strContains c.name "RSP_Amplitude") with
          | [amp_col] =>
            let intervals :=
              ("Rate_Mean", mean rate_col.values) ::
                rrvPairs ++ [("Amplitude_Mean", mean amp_col.values)]
            .ok ⟨[(.num 0, intervals.map (fun p => ("RSP_" ++ p.1, p.2)))]⟩
          | _ => .error (.missingColumn "RSP_Amplitude")
    | _ => .error (.missingColumn "RSP_Rate")
  | .coll entries =>
    match collRows entries with
    | .error e => .error e
    | .ok rs => .ok ⟨rs⟩
  | .other => .error .unboundLocal

/-- Mean of the exactly named column of a frame (mean of the empty list
when the column is absent); a convenience used to state results. -/
def colMean (df : DFrame) (key : String) : ℚ :=
  mean (((getCol df key).map (fun c => c.values)).getD [])

instance instDecEqExcept {e a : Type} [DecidableEq e] [DecidableEq a] :
    DecidableEq (Except e a)
  | .ok x, .ok y => decidable_of_iff (x = y) (by simp)
  | .ok _, .error _ => isFalse (by simp)
  | .error _, .ok _ => isFalse (by simp)
  | .error x, .error y => decidable_of_iff (x = y) (by simp)

/-!
The Python default argument output = {} of the helper is a single object
created when the function is defined and shared by every call that omits
the argument.  The next definitions model that object as explicit module
state threaded through the calls, so that statements about cross-call
leakage can be made.  The source always passes the accumulator
explicitly, which is what rsp_intervalrelated_call reflects.
-/

/-- Module state: the current contents of the shared default-argument
object of the helper. -/
structure ModuleState where
  formatinputDefault : List (String × ℚ)
deriving DecidableEq, Repr

/-- The state of the module right after its definition: the default
object is the empty dict. -/
def initState : ModuleState := ⟨[]⟩

/-- One call of the helper under Python default-argument semantics: with
an explicit accumulator the shared object is untouched; with the
argument omitted the shared object is used and (on success) keeps the
entries the call wrote into it. -/
def formatinputCall (st : ModuleState) (interval : DFrame)
    (output : Option (List (String × ℚ))) :
    Except Err (List (String × ℚ)) × ModuleState :=
  match output with
  | some acc => (formatinput interval acc, st)
  | none =>
    match formatinput interval st.formatinputDefault with
    | .ok acc2 => (.ok acc2, ⟨acc2⟩)
    | .error e => (.error e, st)

/-- The dict-branch loop with the module state threaded through: every
iteration passes the fresh explicit accumulator intervals[index] = {},
exactly as the source does. -/
def collRowsCall (st : ModuleState) :
    List (String × DFrame) →
      Except Err (List (RowLabel × List (String × ℚ))) × ModuleState
  | [] => (.ok [], st)
  | (k, df) :: rest =>
    match formatinputCall st df (some []) with
    | (.error e, st2) => (.error e, st2)
    | (.ok row, st2) =>
      match collRowsCall st2 rest with
      | (.error e, st3) => (.error e, st3)
      | (.ok rs, st3) => (.ok ((.str k, row) :: rs), st3)

/-- One call of rsp_intervalrelated under the stateful semantics: only
the dict branch reaches the helper; the other branches never touch the
shared object. -/
def rsp_intervalrelated_call (st : ModuleState)
    (rsp_rrv : DFrame → Nat → Except Unit RrvMap)
    (data : Input) (sampling_rate : Nat) :
    Except Err ResultTable × ModuleState :=
  match data with
  | .coll entries =>
    match collRowsCall st entries with
    | (.error e, st2) => (.error e, st2)
    | (.ok rs, st2) => (.ok ⟨rs⟩, st2)
  | d => (rsp_intervalrelated rsp_rrv d sampling_rate, st)

/-! ### Concrete inputs used to instantiate the general statements -/

/-- A collaborator mapping holding every required metric with value 0. -/
def zeroRrv : RrvMap := rrvMetricNames.map (fun k => ("RRV_" ++ k, 0))

/-- The worked example of the spec: rate 10, 12, 14 and amplitude
0.5, 0.7, 0.6. -/
def df1 : DFrame :=
  ⟨[⟨"RSP_Rate", [10, 12, 14]⟩, ⟨"RSP_Amplitude", [1/2, 7/10, 3/5]⟩]⟩

/-- A frame whose only rate-like column is RSP_Rate_Alt: the substring
checks accept it but the exact read of RSP_Rate has nothing to find. -/
def dfAlt : DFrame := ⟨[⟨"RSP_Rate_Alt", [1]⟩, ⟨"RSP_Amplitude", [2]⟩]⟩

/-- First member of a two-recording collection, rate mean 15. -/
def dfA : DFrame := ⟨[⟨"RSP_Rate", [10, 20]⟩, ⟨"RSP_Amplitude", [1]⟩]⟩

/-- Second member of a two-recording collection, rate mean 20. -/
def dfB : DFrame := ⟨[⟨"RSP_Rate", [20]⟩, ⟨"RSP_Amplitude", [2]⟩]⟩

/-- A frame with a rate column and no amplitude column. -/
def df5 : DFrame := ⟨[⟨"RSP_Rate", [5]⟩]⟩

/-- A well-formed single recording. -/
def df6 : DFrame := ⟨[⟨"RSP_Rate", [4]⟩, ⟨"RSP_Amplitude", [2]⟩]⟩

/-- A frame with two columns whose names contain RSP_Rate, of which one
is the exact name. -/
def dfMulti : DFrame :=
  ⟨[⟨"RSP_Rate", [1, 3]⟩, ⟨"RSP_Rate_Alt", [9]⟩, ⟨"RSP_Amplitude", [2]⟩]⟩

/-! ### Helper lemmas -/

/-- Behaviour of the RRV copying block when every required key is
present: it returns the 15 pairs in metric order. -/
theorem copyRrvKeys_ok (m : RrvMap) (vals : String → ℚ) :
    ∀ ks : List String, (∀ k ∈ ks, lookupRrv m ("RRV_" ++ k) = some (vals k)) →
      copyRrvKeys m ks = .ok (ks.map fun k => ("RRV_" ++ k, vals k))
  | [], _ => rfl
  | k :: ks, h => by
    have hk := h k (by simp)
    have ih := copyRrvKeys_ok m vals ks (fun x hx => h x (by simp [hx]))
    simp [copyRrvKeys, hk, ih]

/-- Behaviour of the RRV copying block when some required key is absent:
the block raises a KeyError for one of its keys. -/
theorem copyRrvKeys_err (m : RrvMap) :
    ∀ ks : List String, (∃ k ∈ ks, lookupRrv m ("RRV_" ++ k) = none) →
      ∃ k ∈ ks, copyRrvKeys m ks = .error (.keyError ("RRV_" ++ k)) := by
  intro ks
  induction ks with
  | nil => rintro ⟨k, hk, -⟩; exact absurd hk (List.not_mem_nil k)
  | cons k ks ih =>
    rintro ⟨k2, hk2, hnone⟩
    cases hl : lookupRrv m ("RRV_" ++ k) with
    | none => exact ⟨k, by simp, by simp [copyRrvKeys, hl]⟩
    | some v =>
      have hk2ks : k2 ∈ ks := by
        rcases List.mem_cons.mp hk2 with rfl | h
        · rw [hl] at hnone; exact absurd hnone (by simp)
        · exact h
      obtain ⟨k3, hk3, herr⟩ := ih ⟨k2, hk2ks, hnone⟩
      exact ⟨k3, by simp [hk3], by simp [copyRrvKeys, hl, herr]⟩

/-- When the two exactly named columns are present, the helper passes
both absence checks and returns the two means. -/
theorem formatinput_ok (interval : DFrame) (rate amp : Column)
    (hr : getCol interval "RSP_Rate" = some rate)
    (ha : getCol interval "RSP_Amplitude" = some amp) :
    formatinput interval [] =
      .ok [("RSP_Rate_Mean", mean rate.values),
           ("RSP_Amplitude_Mean", mean amp.values)] := by
  have hrn : rate.name = "RSP_Rate" := by
    have := List.find?_some hr
    exact eq_of_beq this
  have han : amp.name = "RSP_Amplitude" := by
    have := List.find?_some ha
    exact eq_of_beq this
  have hrmem : rate.name ∈ interval.cols.map (fun c => c.name) :=
    List.mem_map_of_mem _ (List.mem_of_find?_eq_some hr)
  have hamem : amp.name ∈ interval.cols.map (fun c => c.name) :=
    List.mem_map_of_mem _ (List.mem_of_find?_eq_some ha)
  have h1 : ((interval.cols.map (fun c => c.name)).filter
      (fun i => strContains i "RSP_Rate")) ≠ [] := by
    refine List.ne_nil_of_mem (List.mem_filter.mpr ⟨hrmem, ?_⟩)
    rw [hrn]; decide
  have h2 : ((interval.cols.map (fun c => c.name)).filter
      (fun i => strContains i "RSP_Amplitude")) ≠ [] := by
    refine List.ne_nil_of_mem (List.mem_filter.mpr ⟨hamem, ?_⟩)
    rw [han]; decide
  simp [formatinput, hr, ha, h1, h2, setKey]

/-- The dict-branch loop on a collection whose members all hold both
exactly named columns: one row per entry, in order, holding the two
means. -/
theorem collRows_ok :
    ∀ entries : List (String × DFrame),
      (∀ e ∈ entries,
        (getCol e.2 "RSP_Rate").isSome ∧ (getCol e.2 "RSP_Amplitude").isSome) →
      collRows entries = .ok (entries.map (fun e => (.str e.1,
        [("RSP_Rate_Mean", colMean e.2 "RSP_Rate"),
         ("RSP_Amplitude_Mean", colMean e.2 "RSP_Amplitude")]))) := by
  intro entries
  induction entries with
  | nil => intro _; rfl
  | cons e rest ih =>
    intro h
    obtain ⟨k, df⟩ := e
    obtain ⟨h1, h2⟩ := h (k, df) (by simp)
    obtain ⟨rate, hr⟩ := Option.isSome_iff_exists.mp h1
    obtain ⟨amp, ha⟩ := Option.isSome_iff_exists.mp h2
    have hok := formatinput_ok df rate amp hr ha
    have hcm1 : colMean df "RSP_Rate" = mean rate.values := by simp [colMean, hr]
    have hcm2 : colMean df "RSP_Amplitude" = mean amp.values := by
      simp [colMean, ha]
    simp [collRows, hok, ih (fun x hx => h x (by simp [hx])), hcm1, hcm2]

/-- The stateful loop equals the pure loop and never touches the shared
default object, because every call passes an explicit accumulator. -/
theorem collRowsCall_eq (st : ModuleState) :
    ∀ l, collRowsCall st l = (collRows l, st) := by
  intro l
  induction l with
  | nil => rfl
  | cons e rest ih =>
    obtain ⟨k, df⟩ := e
    simp only [collRowsCall, collRows, formatinputCall]
    cases hf : formatinput df [] with
    | error e2 => simp
    | ok row =>
      simp only [ih]
      cases hr : collRows rest <;> simp

/-- The stateful call semantics coincides with the pure function and
leaves the module state unchanged. -/
theorem call_eq (st : ModuleState) (f : DFrame → Nat → Except Unit RrvMap)
    (data : Input) (sr : Nat) :
    rsp_intervalrelated_call st f data sr = (rsp_intervalrelated f data sr, st) := by
  cases data with
  | coll entries =>
    simp only [rsp_intervalrelated_call, rsp_intervalrelated, collRowsCall_eq]
    cases collRows entries <;> simp
  | frame df => rfl
  | other => rfl

/-! ### The claims -/

/-- Claim C1: for a single recording with exactly one rate-matching and
exactly one amplitude-matching column, and a collaborator returning all
15 required metrics, the result is one row labelled 0 holding exactly
the 17 RSP-prefixed keys in the fixed order Rate_Mean, the 15 RRV
metrics, Amplitude_Mean, where RSP_Rate_Mean is the arithmetic mean of
the matched rate column and RSP_Amplitude_Mean the arithmetic mean of
the matched amplitude column. -/
theorem rsp_c1 (df : DFrame) (rate_col amp_col : Column)
    (f : DFrame → Nat → Except Unit RrvMap) (sr : Nat)
    (m : RrvMap) (vals : String → ℚ)
    (hrate : df.cols.filter (fun c => strContains c.name "RSP_Rate") = [rate_col])
    (hamp : df.cols.filter (fun c => strContains c.name "RSP_Amplitude") = [amp_col])
    (hf : f df sr = .ok m)
    (hvals : ∀ k ∈ rrvMetricNames, lookupRrv m ("RRV_" ++ k) = some (vals k)) :
    rsp_intervalrelated f (.frame df) sr =
      .ok ⟨[(.num 0,
        [("RSP_Rate_Mean", mean rate_col.values),
         ("RSP_RRV_SDBB", vals "SDBB"), ("RSP_RRV_RMSSD", vals "RMSSD"),
         ("RSP_RRV_SDSD", vals "SDSD"), ("RSP_RRV_VLF", vals "VLF"),
         ("RSP_RRV_LF", vals "LF"), ("RSP_RRV_HF", vals "HF"),
         ("RSP_RRV_LFHF", vals "LFHF"), ("RSP_RRV_LFn", vals "LFn"),
         ("RSP_RRV_HFn", vals "HFn"), ("RSP_RRV_SD1", vals "SD1"),
         ("RSP_RRV_SD2", vals "SD2"), ("RSP_RRV_SD2SD1", vals "SD2SD1"),
         ("RSP_RRV_ApEn", vals "ApEn"), ("RSP_RRV_SampEn", vals "SampEn"),
         ("RSP_RRV_DFA", vals "DFA"),
         ("RSP_Amplitude_Mean", mean amp_col.values)])]⟩ := by
  simp only [rsp_intervalrelated, hrate, hf,
    copyRrvKeys_ok m vals rrvMetricNames hvals, hamp]
  simp [rrvMetricNames]

/-- Witness for C1 at the worked example of the spec: rate mean 12,
amplitude mean 3/5, all metrics 0. -/
theorem rsp_c1_witness :
    rsp_intervalrelated (fun _ _ => .ok zeroRrv) (.frame df1) 1000 =
      .ok ⟨[(.num 0,
        [("RSP_Rate_Mean", 12),
         ("RSP_RRV_SDBB", 0), ("RSP_RRV_RMSSD", 0), ("RSP_RRV_SDSD", 0),
         ("RSP_RRV_VLF", 0), ("RSP_RRV_LF", 0), ("RSP_RRV_HF", 0),
         ("RSP_RRV_LFHF", 0), ("RSP_RRV_LFn", 0), ("RSP_RRV_HFn", 0),
         ("RSP_RRV_SD1", 0), ("RSP_RRV_SD2", 0), ("RSP_RRV_SD2SD1", 0),
         ("RSP_RRV_ApEn", 0), ("RSP_RRV_SampEn", 0), ("RSP_RRV_DFA", 0),
         ("RSP_Amplitude_Mean", 3/5)])]⟩ := by
  have h := rsp_c1 df1 ⟨"RSP_Rate", [10, 12, 14]⟩
    ⟨"RSP_Amplitude", [1/2, 7/10, 3/5]⟩ (fun _ _ => .ok zeroRrv) 1000 zeroRrv
    (fun _ => 0) rfl rfl rfl (by decide)
  rw [h]
  norm_num [mean]

/-- Claim C2: a single recording with zero rate-matching columns, or
with more than one, makes the call fail with the missing-column error
for the RSP_Rate family; the result does not depend on the collaborator,
so the failure happens before the collaborator is consulted. -/
theorem rsp_c2 (df : DFrame) (f g : DFrame → Nat → Except Unit RrvMap) (sr : Nat)
    (h : (df.cols.filter (fun c => strContains c.name "RSP_Rate")).length = 0
       ∨ 1 < (df.cols.filter (fun c => strContains c.name "RSP_Rate")).length) :
    rsp_intervalrelated f (.frame df) sr = .error (.missingColumn "RSP_Rate")
    ∧ rsp_intervalrelated f (.frame df) sr = rsp_intervalrelated g (.frame df) sr := by
  cases hl : df.cols.filter (fun c => strContains c.name "RSP_Rate") with
  | nil => constructor <;> simp [rsp_intervalrelated, hl]
  | cons a l =>
    cases l with
    | nil => rw [hl] at h; simp at h
    | cons b l2 => constructor <;> simp [rsp_intervalrelated, hl]

/-- Witness for C2 at a frame with no columns, for two collaborators
that differ everywhere. -/
theorem rsp_c2_witness :
    rsp_intervalrelated (fun _ _ => .error ()) (.frame ⟨[]⟩) 1000 =
      .error (.missingColumn "RSP_Rate")
    ∧ rsp_intervalrelated (fun _ _ => .error ()) (.frame ⟨[]⟩) 1000 =
      rsp_intervalrelated (fun _ _ => .ok []) (.frame ⟨[]⟩) 1000 :=
  rsp_c2 ⟨[]⟩ (fun _ _ => .error ()) (fun _ _ => .ok []) 1000 (by decide)

/-- Claim C3: a collection whose members all hold exactly named RSP_Rate
and RSP_Amplitude columns yields one row per entry, labelled by the
entry keys in order, each row holding exactly RSP_Rate_Mean and
RSP_Amplitude_Mean equal to the means of those columns, with no further
prefix. -/
theorem rsp_c3 (entries : List (String × DFrame))
    (f : DFrame → Nat → Except Unit RrvMap) (sr : Nat)
    (h : ∀ e ∈ entries,
      (getCol e.2 "RSP_Rate").isSome ∧ (getCol e.2 "RSP_Amplitude").isSome) :
    rsp_intervalrelated f (.coll entries) sr =
      .ok ⟨entries.map (fun e => (.str e.1,
        [("RSP_Rate_Mean", colMean e.2 "RSP_Rate"),
         ("RSP_Amplitude_Mean", colMean e.2 "RSP_Amplitude")]))⟩ := by
  simp [rsp_intervalrelated, collRows_ok entries h]

/-- Witness for C3 at a two-recording collection with rate means 15
and 20. -/
theorem rsp_c3_witness :
    rsp_intervalrelated (fun _ _ => .ok []) (.coll [("A", dfA), ("B", dfB)]) 1000 =
      .ok ⟨[(.str "A", [("RSP_Rate_Mean", 15), ("RSP_Amplitude_Mean", 1)]),
            (.str "B", [("RSP_Rate_Mean", 20), ("RSP_Amplitude_Mean", 2)])]⟩ := by
  have h := rsp_c3 [("A", dfA), ("B", dfB)] (fun _ _ => .ok []) 1000 (by decide)
  have hA : getCol dfA "RSP_Rate" = some ⟨"RSP_Rate", [10, 20]⟩ := rfl
  have hA2 : getCol dfA "RSP_Amplitude" = some ⟨"RSP_Amplitude", [1]⟩ := rfl
  have hB : getCol dfB "RSP_Rate" = some ⟨"RSP_Rate", [20]⟩ := rfl
  have hB2 : getCol dfB "RSP_Amplitude" = some ⟨"RSP_Amplitude", [2]⟩ := rfl
  rw [h]
  norm_num [colMean, hA, hA2, hB, hB2, mean]

/-- Claim C4, amended: an input that is neither a frame nor a dict makes
the call raise, but with the UnboundLocalError of the final return of
the never-assigned result variable, not with a dedicated shape error. -/
theorem rsp_c4 (f : DFrame → Nat → Except Unit RrvMap) (sr : Nat) :
    rsp_intervalrelated f .other sr = .error .unboundLocal := rfl

/-- Counterexample for C4 as stated: at an unrecognised input the raised
error is the UnboundLocalError, which is not the invalidInputShape error
the claim promises. -/
theorem rsp_c4_counterexample :
    rsp_intervalrelated (fun _ _ => .ok []) .other 1000 = .error .unboundLocal
    ∧ Err.unboundLocal ≠ Err.invalidInputShape := by
  constructor
  · rfl
  · decide

/-- Claim C5: a single recording with exactly one rate-matching column
but zero or several amplitude-matching columns fails with the
missing-column error for the RSP_Amplitude family (given a collaborator
that supplies every required metric), and no partial result is
returned. -/
theorem rsp_c5 (df : DFrame) (rate_col : Column)
    (f : DFrame → Nat → Except Unit RrvMap) (sr : Nat)
    (m : RrvMap) (vals : String → ℚ)
    (hrate : df.cols.filter (fun c => strContains c.name "RSP_Rate") = [rate_col])
    (hf : f df sr = .ok m)
    (hvals : ∀ k ∈ rrvMetricNames, lookupRrv m ("RRV_" ++ k) = some (vals k))
    (hamp : (df.cols.filter (fun c => strContains c.name "RSP_Amplitude")).length = 0
          ∨ 1 < (df.cols.filter (fun c => strContains c.name "RSP_Amplitude")).length) :
    rsp_intervalrelated f (.frame df) sr = .error (.missingColumn "RSP_Amplitude") := by
  cases hl : df.cols.filter (fun c => strContains c.name "RSP_Amplitude") with
  | nil =>
    simp [rsp_intervalrelated, hrate, hf,
      copyRrvKeys_ok m vals rrvMetricNames hvals, hl]
  | cons a l =>
    cases l with
    | nil => rw [hl] at hamp; simp at hamp
    | cons b l2 =>
      simp [rsp_intervalrelated, hrate, hf,
        copyRrvKeys_ok m vals rrvMetricNames hvals, hl]

/-- Witness for C5 at a frame holding a rate column and nothing else. -/
theorem rsp_c5_witness :
    rsp_intervalrelated (fun _ _ => .ok zeroRrv) (.frame df5) 1000 =
      .error (.missingColumn "RSP_Amplitude") :=
  rsp_c5 df5 ⟨"RSP_Rate", [5]⟩ (fun _ _ => .ok zeroRrv) 1000 zeroRrv (fun _ => 0)
    rfl rfl (by decide) (by decide)

/-- Claim C6: in the single-recording path, a collaborator that raises
makes the whole call fail with that propagated failure; a collaborator
mapping missing one of the 15 required metrics makes the whole call fail
with the key error of a required metric (no partially merged result in
either case); and when every metric is present each one appears in the
output row under its RRV-prefixed name. -/
theorem rsp_c6 (df : DFrame) (rate_col : Column) (sr : Nat)
    (hrate : df.cols.filter (fun c => strContains c.name "RSP_Rate") = [rate_col]) :
    (∀ f : DFrame → Nat → Except Unit RrvMap, f df sr = .error () →
      rsp_intervalrelated f (.frame df) sr = .error .rrvRaise)
    ∧ (∀ (f : DFrame → Nat → Except Unit RrvMap) (m : RrvMap), f df sr = .ok m →
        (∃ k ∈ rrvMetricNames, lookupRrv m ("RRV_" ++ k) = none) →
        ∃ k ∈ rrvMetricNames,
          rsp_intervalrelated f (.frame df) sr = .error (.keyError ("RRV_" ++ k)))
    ∧ (∀ (f : DFrame → Nat → Except Unit RrvMap) (m : RrvMap)
        (vals : String → ℚ) (amp_col : Column), f df sr = .ok m →
        (∀ k ∈ rrvMetricNames, lookupRrv m ("RRV_" ++ k) = some (vals k)) →
        df.cols.filter (fun c => strContains c.name "RSP_Amplitude") = [amp_col] →
        ∀ k ∈ rrvMetricNames, ∃ row,
          rsp_intervalrelated f (.frame df) sr = .ok ⟨[(.num 0, row)]⟩
          ∧ ("RSP_RRV_" ++ k, vals k) ∈ row) := by
  refine ⟨?_, ?_, ?_⟩
  · intro f hf
    simp [rsp_intervalrelated, hrate, hf]
  · intro f m hf hmiss
    obtain ⟨k, hk, herr⟩ := copyRrvKeys_err m rrvMetricNames hmiss
    exact ⟨k, hk, by simp [rsp_intervalrelated, hrate, hf, herr]⟩
  · intro f m vals amp_col hf hvals hamp k hk
    refine ⟨("RSP_Rate_Mean", mean rate_col.values) ::
        rrvMetricNames.map (fun k2 => ("RSP_" ++ ("RRV_" ++ k2), vals k2)) ++
        [("RSP_Amplitude_Mean", mean amp_col.values)], ?_, ?_⟩
    · simp [rsp_intervalrelated, hrate, hf,
        copyRrvKeys_ok m vals rrvMetricNames hvals, hamp]
    · simp only [rrvMetricNames] at hk
      simp only [List.mem_cons, List.not_mem_nil, or_false] at hk
      rcases hk with rfl | rfl | rfl | rfl | rfl | rfl | rfl | rfl | rfl | rfl |
        rfl | rfl | rfl | rfl | rfl <;> simp [rrvMetricNames]

/-- Witness for C6: a raising collaborator propagates; an empty mapping
fails on a required metric key; a complete mapping gets its SDBB metric
copied into the row under the prefixed name. -/
theorem rsp_c6_witness :
    rsp_intervalrelated (fun _ _ => .error ()) (.frame df6) 1000 = .error .rrvRaise
    ∧ (∃ k ∈ rrvMetricNames,
        rsp_intervalrelated (fun _ _ => .ok []) (.frame df6) 1000 =
          .error (.keyError ("RRV_" ++ k)))
    ∧ (∃ row, rsp_intervalrelated (fun _ _ => .ok zeroRrv) (.frame df6) 1000 =
          .ok ⟨[(.num 0, row)]⟩ ∧ ("RSP_RRV_SDBB", (0 : ℚ)) ∈ row) := by
  refine ⟨?_, ?_, ?_⟩
  · exact (rsp_c6 df6 ⟨"RSP_Rate", [4]⟩ 1000 rfl).1 _ rfl
  · exact (rsp_c6 df6 ⟨"RSP_Rate", [4]⟩ 1000 rfl).2.1 _ [] rfl (by decide)
  · have h := (rsp_c6 df6 ⟨"RSP_Rate", [4]⟩ 1000 rfl).2.2
      (fun _ _ => .ok zeroRrv) zeroRrv (fun _ => 0) ⟨"RSP_Amplitude", [2]⟩ rfl
      (by decide) rfl "SDBB" (by decide)
    simpa using h

/-- Claim C7: the per-recording step of the collection path only checks
that some column name contains each token, so any number of matches at
least one is accepted, and the means are then taken from the exactly
named RSP_Rate and RSP_Amplitude columns. -/
theorem rsp_c7 (interval : DFrame) (rate amp : Column)
    (hr : getCol interval "RSP_Rate" = some rate)
    (ha : getCol interval "RSP_Amplitude" = some amp) :
    formatinput interval [] =
      .ok [("RSP_Rate_Mean", mean rate.values),
           ("RSP_Amplitude_Mean", mean amp.values)] :=
  formatinput_ok interval rate amp hr ha

/-- Witness for C7 at a frame with two rate-matching columns: it is
accepted and the mean 2 comes from the exactly named column, not from
the second match. -/
theorem rsp_c7_witness :
    (dfMulti.cols.filter (fun c => strContains c.name "RSP_Rate")).length = 2
    ∧ formatinput dfMulti [] =
        .ok [("RSP_Rate_Mean", 2), ("RSP_Amplitude_Mean", 2)] := by
  constructor
  · decide
  · have h := rsp_c7 dfMulti ⟨"RSP_Rate", [1, 3]⟩ ⟨"RSP_Amplitude", [2]⟩
      rfl rfl
    rw [h]
    norm_num [mean]

/-- Claim C8: under the stateful semantics of the shared default
accumulator object, a second call on the same input returns the same
result as the first, and no call changes the module state, because every
call site passes a fresh explicit accumulator. -/
theorem rsp_c8 (st : ModuleState) (f : DFrame → Nat → Except Unit RrvMap)
    (data : Input) (sr : Nat) :
    (rsp_intervalrelated_call
        ((rsp_intervalrelated_call st f data sr).2) f data sr).1 =
      (rsp_intervalrelated_call st f data sr).1
    ∧ (rsp_intervalrelated_call st f data sr).2 = st := by
  simp [call_eq]

/-- Claim C9: in the collection path, a recording whose rate-like column
is named RSP_Rate_Alt passes both substring presence checks, yet the
call fails at the exact-name read of RSP_Rate with its key error. -/
theorem rsp_c9 (f : DFrame → Nat → Except Unit RrvMap) (sr : Nat) :
    ((dfAlt.cols.map (fun c => c.name)).filter
        (fun i => strContains i "RSP_Rate")).length ≠ 0
    ∧ ((dfAlt.cols.map (fun c => c.name)).filter
        (fun i => strContains i "RSP_Amplitude")).length ≠ 0
    ∧ getCol dfAlt "RSP_Rate" = none
    ∧ rsp_intervalrelated f (.coll [("A", dfAlt)]) sr =
        .error (.keyError "RSP_Rate") := by
  refine ⟨by decide, by decide, by decide, ?_⟩
  simp [rsp_intervalrelated, collRows, formatinput, getCol, dfAlt, strContains,
    containsSub]

/-- Claim C10: the empty collection is processed without failure into a
table with no rows. -/
theorem rsp_c10 (f : DFrame → Nat → Except Unit RrvMap) (sr : Nat) :
    rsp_intervalrelated f (.coll []) sr = .ok ⟨[]⟩ := rfl

end RspInterval
